import Mathlib

/-
  Shallow embedding of GLauncher (src/main.rs), a terminal launcher.

  Modelling conventions:
  * `usize` is modelled as `Nat` with checked arithmetic: Rust declares
    arithmetic overflow a program error (debug builds panic), so a
    subtraction below zero is modelled as a `PanicKind.arithUnderflow`
    outcome.  Increments are modelled as exact `Nat` addition (an actual
    usize overflow would need 2^64 key events and is unreachable in every
    statement below).
  * Effectful calls (println!/eprintln!, fork, Command::spawn, thread::sleep)
    are recorded in an effect trace; `fork()`'s outcome and the results of
    the I/O calls (event polling, directory reads, terminal writes) are
    inputs to the model, since they are decided by the environment.
  * A Rust panic (index out of bounds, arithmetic underflow in debug,
    `.unwrap()` on an `Err`) is an `Except.error` outcome of the model.
-/

namespace GLauncher

/-- `struct Program` (main.rs lines 27-32): one launchable entry decoded
from a config file. -/
structure Program where
  title : String
  description : String
  command : String
deriving DecidableEq, Repr

/-- `struct GlobalInfo` (main.rs lines 19-25).  `liststate` models the
ratatui `ListState` by its selected index (`ListState::default()` has
selection `none`). -/
structure GlobalInfo where
  config_path : Option String
  list : List Program
  liststate : Option Nat
  list_pos : Nat
deriving DecidableEq, Repr

/-- The subset of crossterm `KeyCode` the program inspects; `Other` stands
for every other key. -/
inductive KeyCode
| Up
| Down
| Enter
| Char (c : Char)
| Other
deriving DecidableEq, Repr

/-- crossterm `KeyEventKind`. -/
inductive KeyEventKind
| Press
| Release
| Repeat
deriving DecidableEq, Repr

/-- crossterm `KeyEvent`, restricted to the fields the program reads. -/
structure KeyEvent where
  code : KeyCode
  kind : KeyEventKind
deriving DecidableEq, Repr

/-- crossterm `Event`: a key event, or any other event (resize, mouse, ...),
which the `if let Event::Key` pattern ignores. -/
inductive Event
| Key (key : KeyEvent)
| NonKey
deriving DecidableEq, Repr

/-- Outcome of the `fork()` call as observed by one process: the parent
branch (with the child pid), the child branch, or failure. -/
inductive ForkResult
| Parent (child : Int)
| Child
| Err
deriving DecidableEq, Repr

/-- Observable side effects of `handle_events`. -/
inductive Effect
| println (msg : String)
| forkCall
| spawn (program : String) (args : List String)
| sleepMs (ms : Nat)
deriving DecidableEq, Repr

/-- Reasons the Rust program panics. -/
inductive PanicKind
| arithUnderflow
| indexOutOfBounds
| unwrapPanic
deriving DecidableEq, Repr

/-- Result of one `handle_events` call: the updated state, the returned
`bool` (`true` = quit), and the side effects in order. -/
structure EventsResult where
  state : GlobalInfo
  quit : Bool
  effects : List Effect
deriving DecidableEq, Repr

/-- The three arms of the `match fork()` (main.rs lines 66-77).  In the
child arm, `Command::new("sh").arg("-c").arg(command).spawn().unwrap()`
(line 74) panics when the spawn fails; `spawnRes` is that
environment-chosen outcome, so the child arm yields the spawn effect only
on success and an unwrap panic otherwise. -/
def forkBranch (command : String) (forkRes : ForkResult)
    (spawnRes : Except Unit Unit) : Except PanicKind (List Effect) :=
  match forkRes with
  | ForkResult.Parent child =>
      Except.ok [Effect.println
        ("Continuing execution in parent process, new child has pid: "
          ++ toString child)]
  | ForkResult.Child =>
      match spawnRes with
      | Except.ok _ => Except.ok [Effect.spawn "sh" ["-c", command]]
      | Except.error _ => Except.error PanicKind.unwrapPanic
  | ForkResult.Err => Except.ok [Effect.println "Fork failed"]

/-- The condition of the down branch (main.rs lines 60-61):
`key.code == KeyCode::Down || key.code == KeyCode::Char('j') && data.list_pos < data.list.len() - 1`.
Rust's `&&` binds tighter than `||` and both short-circuit, so
`data.list.len() - 1` is evaluated only when the code is `'j'`; with an
empty list that usize subtraction underflows. -/
def downCond (data : GlobalInfo) (code : KeyCode) : Except PanicKind Bool :=
  if code = KeyCode.Down then Except.ok true
  else if code = KeyCode.Char 'j' then
    if data.list.length = 0 then Except.error PanicKind.arithUnderflow
    else Except.ok (decide (data.list_pos < data.list.length - 1))
  else Except.ok false

/-- `handle_events` (main.rs lines 52-84).  `input` is the polled event
(`none` when `event::poll` times out), `forkRes` the environment-chosen
outcome of `fork()`, and `spawnRes` the outcome of the child branch's
`spawn()` call (consulted only in the child arm).  The up condition
mirrors the Rust precedence `Up || (Char('k') && list_pos > 0)`, so `Up`
reaches the decrement even at position 0. -/
def handle_events (data : GlobalInfo) (input : Option Event) (forkRes : ForkResult)
    (spawnRes : Except Unit Unit) : Except PanicKind EventsResult :=
  match input with
  | none => Except.ok ⟨data, false, []⟩
  | some Event.NonKey => Except.ok ⟨data, false, []⟩
  | some (Event.Key key) =>
    if key.kind = KeyEventKind.Press ∧ key.code = KeyCode.Char 'q' then
      Except.ok ⟨data, true, []⟩
    else if key.code = KeyCode.Up ∨ (key.code = KeyCode.Char 'k' ∧ data.list_pos > 0) then
      if data.list_pos = 0 then Except.error PanicKind.arithUnderflow
      else Except.ok ⟨{ data with list_pos := data.list_pos - 1 }, false, []⟩
    else
      match downCond data key.code with
      | Except.error e => Except.error e
      | Except.ok true =>
          Except.ok ⟨{ data with list_pos := data.list_pos + 1 }, false, []⟩
      | Except.ok false =>
        if key.code = KeyCode.Enter then
          if h : data.list_pos < data.list.length then
            match forkBranch (data.list.get ⟨data.list_pos, h⟩).command forkRes spawnRes with
            | Except.error e => Except.error e
            | Except.ok effs =>
                Except.ok ⟨data, true, Effect.forkCall :: effs ++ [Effect.sleepMs 5000]⟩
          else Except.error PanicKind.indexOutOfBounds
        else Except.ok ⟨data, false, []⟩

/-- The frame produced by `ui`: title bar, the list pane's item titles and
highlighted row, the detail panes, and the bottom command pane. -/
structure UIFrame where
  header : String
  items : List String
  selected : Option Nat
  detailTitle : String
  detailDescription : String
  commandLine : String
deriving DecidableEq, Repr

/-- `ui` (main.rs lines 85-151).  It maps the entry titles into the list
widget, sets `liststate` to `Some(list_pos)`, then indexes
`data.list[data.list_pos]` for the three detail panes — an out-of-bounds
panic when the list is empty. -/
def ui (data : GlobalInfo) : Except PanicKind (GlobalInfo × UIFrame) :=
  let items := (data.list).map (fun p => p.title)
  let data2 := { data with liststate := some data.list_pos }
  if h : data.list_pos < data.list.length then
    let sel := data.list.get ⟨data.list_pos, h⟩
    Except.ok (data2, ⟨"GLauncher", items, data2.liststate,
      sel.title, sel.description, sel.command⟩)
  else Except.error PanicKind.indexOutOfBounds

/-- The per-file loop of `handle_setup` (main.rs lines 163-171).  Each
directory entry is represented by its `read_to_string` outcome (a read or
iteration error makes the `.unwrap()` calls panic); `decode` stands for the
external `toml::from_str::<Program>` collaborator.  On success it returns
the loaded entries in enumeration order together with the emitted
diagnostics. -/
def loadFiles (decode : String → Option Program) :
    List (Except Unit String) → Except PanicKind (List Program × List String)
| [] => Except.ok ([], [])
| Except.error _ :: _ => Except.error PanicKind.unwrapPanic
| Except.ok s :: rest =>
  match loadFiles decode rest with
  | Except.error e => Except.error e
  | Except.ok (ps, ds) =>
    match decode s with
    | some entry => Except.ok (entry :: ps, ds)
    | none => Except.ok (ps, "Could not load config file as it is invalid." :: ds)

/-- `handle_setup` (main.rs lines 153-173).  `configDir` models
`dirs::config_dir().unwrap()`; `configDirExists` the `config_path.exists()`
check; `createResult` the outcome of `fs::create_dir_all`;
`readDirResult` the outcome of `fs::read_dir` (its `.unwrap()` panics on
error).  Returns the initial `GlobalInfo` and the `eprintln!` diagnostics
in order. -/
def handle_setup (decode : String → Option Program) (configDir : String)
    (configDirExists : Bool) (createResult : Except String Unit)
    (readDirResult : Except Unit (List (Except Unit String))) :
    Except PanicKind (GlobalInfo × List String) :=
  let createDiags : List String :=
    if configDirExists then []
    else
      match createResult with
      | Except.ok _ => []
      | Except.error e => ["Could not make config directory. " ++ e]
  match readDirResult with
  | Except.error _ => Except.error PanicKind.unwrapPanic
  | Except.ok files =>
    match loadFiles decode files with
    | Except.error e => Except.error e
    | Except.ok (ps, ds) =>
      Except.ok (⟨some (configDir ++ "/glauncher"), ps, none, 0⟩, createDiags ++ ds)

/-- How one iteration of the main loop ends by `main`'s control flow:
`exitOk` is the normal return (loop left, restoration code runs),
`exitErr` an early `return Err` through `?`, `panicked` a Rust panic
(from `ui` inside the draw closure, or from `handle_events(..).unwrap()`). -/
inductive MainOutcome
| exitOk
| exitErr
| panicked
deriving DecidableEq, Repr

/-- Environment inputs of one main-loop iteration: the I/O outcome of
`terminal.draw` (after the `ui` closure ran), the polled event, the
`fork()` outcome if a launch happens, and the outcome of the child
branch's `spawn()` call. -/
structure Iteration where
  drawResult : Except Unit Unit
  input : Option Event
  forkRes : ForkResult
  spawnRes : Except Unit Unit
deriving Repr

/-- The `while !should_quit` loop of `main` (main.rs lines 41-49) together
with the shutdown code after it (lines 47-48).  Returns the outcome and
the number of times the terminal-restoration pair
(`disable_raw_mode` + `LeaveAlternateScreen`) was executed; `none` means
the iteration trace ran out while the loop was still running. -/
def runMain : GlobalInfo → List Iteration → Option (MainOutcome × Nat)
| _, [] => none
| data, it :: rest =>
  match ui data with
  | Except.error _ => some (MainOutcome.panicked, 0)
  | Except.ok (data1, _) =>
    match it.drawResult with
    | Except.error _ => some (MainOutcome.exitErr, 0)
    | Except.ok _ =>
      match handle_events data1 it.input it.forkRes it.spawnRes with
      | Except.error _ => some (MainOutcome.panicked, 0)
      | Except.ok res =>
        if res.quit then some (MainOutcome.exitOk, 1)
        else runMain res.state rest

/-- C1: the claim says the selection index stays in `[0, len(entries))` for
every up/down navigation sequence, clamped at both ends, for arrows and
'k'/'j' alike.  The code violates it: Rust's `&&` binds tighter than `||`,
so the bounds checks only guard the 'k'/'j' alternates.  At the failing
input (one entry, selection 0) an Up key press reaches
`data.list_pos -= 1` and underflows usize (panic in debug builds), and a
Down key press at the last index moves the selection to `len(entries)`,
outside the claimed range. -/
theorem C1_arrow_keys_escape_bounds :
    handle_events ⟨some "cfg", [⟨"a", "b", "c"⟩], none, 0⟩
        (some (Event.Key ⟨KeyCode.Up, KeyEventKind.Press⟩)) ForkResult.Err
        (Except.ok ()) =
      Except.error PanicKind.arithUnderflow
    ∧ handle_events ⟨some "cfg", [⟨"a", "b", "c"⟩], none, 0⟩
        (some (Event.Key ⟨KeyCode.Down, KeyEventKind.Press⟩)) ForkResult.Err
        (Except.ok ()) =
      Except.ok ⟨⟨some "cfg", [⟨"a", "b", "c"⟩], none, 1⟩, false, []⟩ :=
  ⟨rfl, rfl⟩

/-- C9: pressing the quit key 'q' in any state returns `Quit` (`true`)
immediately, with no effect (no fork call, no spawn, no sleep) and no
state mutation. -/
theorem C9_quit_key_immediate (data : GlobalInfo) (forkRes : ForkResult)
    (spawnRes : Except Unit Unit) :
    handle_events data (some (Event.Key ⟨KeyCode.Char 'q', KeyEventKind.Press⟩))
        forkRes spawnRes =
      Except.ok ⟨data, true, []⟩ :=
  rfl

/-- C6 counterexample: the claim asserts that in the child branch the
command is spawned and `Quit` is then emitted after the settle delay.
When the child's `spawn()` fails, line 74's `.unwrap()` panics instead:
at this concrete input the child branch never reaches the settle delay
and never returns `true`. -/
theorem C6_child_spawn_failure_panics :
    handle_events ⟨some "cfg", [⟨"a", "b", "c"⟩], none, 0⟩
        (some (Event.Key ⟨KeyCode.Enter, KeyEventKind.Press⟩)) ForkResult.Child
        (Except.error ()) =
      Except.error PanicKind.unwrapPanic :=
  rfl

/-- C6 amended: on an Enter key press with a valid selection,
`handle_events` reads the selected entry's command and forks; in the
child branch, when the `spawn()` of `sh -c <command>` succeeds it is a
non-waited subprocess and `handle_events` sleeps the fixed 5000 ms settle
delay and only then returns `Quit` (`true`); when the spawn fails the
child panics at the unwrap instead of quitting. -/
theorem C6_enter_launch_child_spawn_ok (data : GlobalInfo)
    (h : data.list_pos < data.list.length) :
    handle_events data (some (Event.Key ⟨KeyCode.Enter, KeyEventKind.Press⟩))
        ForkResult.Child (Except.ok ()) =
      Except.ok ⟨data, true,
        [Effect.forkCall,
         Effect.spawn "sh" ["-c", (data.list.get ⟨data.list_pos, h⟩).command],
         Effect.sleepMs 5000]⟩ := by
  simp [handle_events, downCond, forkBranch, h]

/-- C6 witness: a one-entry list with command "c" and a successful spawn. -/
theorem C6_enter_launch_child_spawn_ok_witness :
    handle_events ⟨some "cfg", [⟨"a", "b", "c"⟩], none, 0⟩
        (some (Event.Key ⟨KeyCode.Enter, KeyEventKind.Press⟩)) ForkResult.Child
        (Except.ok ()) =
      Except.ok ⟨⟨some "cfg", [⟨"a", "b", "c"⟩], none, 0⟩, true,
        [Effect.forkCall, Effect.spawn "sh" ["-c", "c"], Effect.sleepMs 5000]⟩ :=
  C6_enter_launch_child_spawn_ok ⟨some "cfg", [⟨"a", "b", "c"⟩], none, 0⟩ (by decide)

/-- C3 counterexample: the claim says that on fork failure `handle_events`
does not emit `Quit` (does not return `true`).  At this concrete input the
fork fails, yet the call still returns `true` (after the settle delay). -/
theorem C3_fork_failure_still_quits :
    handle_events ⟨some "cfg", [⟨"a", "b", "c"⟩], none, 0⟩
        (some (Event.Key ⟨KeyCode.Enter, KeyEventKind.Press⟩)) ForkResult.Err
        (Except.ok ()) =
      Except.ok ⟨⟨some "cfg", [⟨"a", "b", "c"⟩], none, 0⟩, true,
        [Effect.forkCall, Effect.println "Fork failed", Effect.sleepMs 5000]⟩ :=
  rfl

/-- C3 amended: if the fork fails, the failure is reported
(`println "Fork failed"`) and no subprocess is spawned, but
`handle_events` still sleeps the settle delay and returns `Quit`
(`true`) rather than aborting without quitting. -/
theorem C3_fork_failure_reported_no_spawn (data : GlobalInfo) (forkRes : ForkResult)
    (spawnRes : Except Unit Unit)
    (h : data.list_pos < data.list.length) (hf : forkRes = ForkResult.Err) :
    handle_events data (some (Event.Key ⟨KeyCode.Enter, KeyEventKind.Press⟩))
        forkRes spawnRes =
      Except.ok ⟨data, true,
        [Effect.forkCall, Effect.println "Fork failed", Effect.sleepMs 5000]⟩ := by
  subst hf
  simp [handle_events, downCond, forkBranch, h]

/-- C3 witness: a two-entry list with selection 1 and the fork failing. -/
theorem C3_fork_failure_reported_no_spawn_witness :
    handle_events ⟨some "cfg", [⟨"a", "b", "c"⟩, ⟨"d", "e", "f"⟩], none, 1⟩
        (some (Event.Key ⟨KeyCode.Enter, KeyEventKind.Press⟩)) ForkResult.Err
        (Except.ok ()) =
      Except.ok ⟨⟨some "cfg", [⟨"a", "b", "c"⟩, ⟨"d", "e", "f"⟩], none, 1⟩, true,
        [Effect.forkCall, Effect.println "Fork failed", Effect.sleepMs 5000]⟩ :=
  C3_fork_failure_reported_no_spawn ⟨some "cfg", [⟨"a", "b", "c"⟩, ⟨"d", "e", "f"⟩], none, 1⟩
    ForkResult.Err (Except.ok ()) (by decide) rfl

/-- C4 counterexample: the claim says key-release events cause no state
transition for the mapped keys.  At this concrete input (selection 1) an
Up key event of kind Release still moves the selection to 0: only the
quit branch checks `key.kind == Press`. -/
theorem C4_release_up_still_moves :
    handle_events ⟨some "cfg", [⟨"a", "b", "c"⟩, ⟨"d", "e", "f"⟩], none, 1⟩
        (some (Event.Key ⟨KeyCode.Up, KeyEventKind.Release⟩)) ForkResult.Err
        (Except.ok ()) =
      Except.ok ⟨⟨some "cfg", [⟨"a", "b", "c"⟩, ⟨"d", "e", "f"⟩], none, 0⟩, false, []⟩ :=
  rfl

/-- C4 amended: the key-event kind is inspected only in the quit branch: a
non-press 'q' event is ignored, while for every other key code the result
of `handle_events` is the same as for a press of the same code — release
and repeat variants of up/down/confirm act like presses. -/
theorem C4_kind_only_gates_quit :
    (∀ (data : GlobalInfo) (kind : KeyEventKind) (forkRes : ForkResult)
      (spawnRes : Except Unit Unit),
      kind ≠ KeyEventKind.Press →
      handle_events data (some (Event.Key ⟨KeyCode.Char 'q', kind⟩)) forkRes spawnRes =
        Except.ok ⟨data, false, []⟩)
    ∧ (∀ (data : GlobalInfo) (key : KeyEvent) (forkRes : ForkResult)
      (spawnRes : Except Unit Unit),
      key.code ≠ KeyCode.Char 'q' →
      handle_events data (some (Event.Key key)) forkRes spawnRes =
        handle_events data (some (Event.Key ⟨key.code, KeyEventKind.Press⟩))
          forkRes spawnRes) := by
  constructor
  · intro data kind forkRes spawnRes hk
    cases kind with
    | Press => exact absurd rfl hk
    | Release => rfl
    | Repeat => rfl
  · intro data key forkRes spawnRes hcode
    obtain ⟨code, kind⟩ := key
    cases code with
    | Char c =>
      have hc : c ≠ 'q' := by
        intro hq
        exact hcode (by rw [hq])
      cases kind with
      | Press => rfl
      | Release => simp [handle_events, hc]
      | Repeat => simp [handle_events, hc]
    | Up => cases kind <;> rfl
    | Down => cases kind <;> rfl
    | Enter => cases kind <;> rfl
    | Other => cases kind <;> rfl

/-- C4 witness: both conjuncts applied at concrete inputs: a released 'q'
is ignored, and a released Down acts exactly like a pressed Down. -/
theorem C4_kind_only_gates_quit_witness :
    handle_events ⟨some "cfg", [⟨"a", "b", "c"⟩], none, 0⟩
        (some (Event.Key ⟨KeyCode.Char 'q', KeyEventKind.Release⟩)) ForkResult.Err
        (Except.ok ()) =
      Except.ok ⟨⟨some "cfg", [⟨"a", "b", "c"⟩], none, 0⟩, false, []⟩
    ∧ handle_events ⟨some "cfg", [⟨"a", "b", "c"⟩], none, 0⟩
        (some (Event.Key ⟨KeyCode.Down, KeyEventKind.Release⟩)) ForkResult.Err
        (Except.ok ()) =
      handle_events ⟨some "cfg", [⟨"a", "b", "c"⟩], none, 0⟩
        (some (Event.Key ⟨KeyCode.Down, KeyEventKind.Press⟩)) ForkResult.Err
        (Except.ok ()) :=
  ⟨C4_kind_only_gates_quit.1 ⟨some "cfg", [⟨"a", "b", "c"⟩], none, 0⟩
      KeyEventKind.Release ForkResult.Err (Except.ok ()) (by decide),
   C4_kind_only_gates_quit.2 ⟨some "cfg", [⟨"a", "b", "c"⟩], none, 0⟩
      ⟨KeyCode.Down, KeyEventKind.Release⟩ ForkResult.Err (Except.ok ()) (by decide)⟩

/-- C5 counterexample: the claim says the down-navigation branch reaches a
panic/error outcome on an empty list.  For the Down arrow key it does not:
`||` short-circuits before `len() - 1` is evaluated, so `handle_events`
returns normally and merely moves the selection out of range. -/
theorem C5_down_arrow_returns_normally :
    handle_events ⟨some "cfg", [], none, 0⟩
        (some (Event.Key ⟨KeyCode.Down, KeyEventKind.Press⟩)) ForkResult.Err
        (Except.ok ()) =
      Except.ok ⟨⟨some "cfg", [], none, 1⟩, false, []⟩ :=
  rfl

/-- C5 amended: with an empty entries list, `ui` and the confirm (Enter)
branch panic with an index-out-of-bounds, and the 'j' down-navigation
panics on the `len() - 1` underflow; the Down arrow key, however, returns
normally, incrementing the selection out of range. -/
theorem C5_empty_list_behaviour (data : GlobalInfo) (kind : KeyEventKind)
    (forkRes : ForkResult) (spawnRes : Except Unit Unit) (h : data.list = []) :
    ui data = Except.error PanicKind.indexOutOfBounds
    ∧ handle_events data (some (Event.Key ⟨KeyCode.Enter, kind⟩)) forkRes spawnRes =
        Except.error PanicKind.indexOutOfBounds
    ∧ handle_events data (some (Event.Key ⟨KeyCode.Char 'j', kind⟩)) forkRes spawnRes =
        Except.error PanicKind.arithUnderflow
    ∧ handle_events data (some (Event.Key ⟨KeyCode.Down, kind⟩)) forkRes spawnRes =
        Except.ok ⟨{ data with list_pos := data.list_pos + 1 }, false, []⟩ := by
  refine ⟨?_, ?_, ?_, ?_⟩
  · simp [ui, h]
  · simp [handle_events, downCond, h]
  · simp [handle_events, downCond, h]
  · simp [handle_events, downCond, h]

/-- C5 witness: the empty state with selection 0. -/
theorem C5_empty_list_behaviour_witness :
    ui ⟨some "cfg", [], none, 0⟩ = Except.error PanicKind.indexOutOfBounds
    ∧ handle_events ⟨some "cfg", [], none, 0⟩
        (some (Event.Key ⟨KeyCode.Enter, KeyEventKind.Press⟩)) ForkResult.Err
        (Except.ok ()) =
      Except.error PanicKind.indexOutOfBounds
    ∧ handle_events ⟨some "cfg", [], none, 0⟩
        (some (Event.Key ⟨KeyCode.Char 'j', KeyEventKind.Press⟩)) ForkResult.Err
        (Except.ok ()) =
      Except.error PanicKind.arithUnderflow
    ∧ handle_events ⟨some "cfg", [], none, 0⟩
        (some (Event.Key ⟨KeyCode.Down, KeyEventKind.Press⟩)) ForkResult.Err
        (Except.ok ()) =
      Except.ok ⟨⟨some "cfg", [], none, 1⟩, false, []⟩ :=
  C5_empty_list_behaviour ⟨some "cfg", [], none, 0⟩ KeyEventKind.Press
    ForkResult.Err (Except.ok ()) rfl

/-- C2 counterexample: the claim says terminal restoration happens exactly
once on every exit path of `main`, including errors returned from drawing.
At this concrete input the first `terminal.draw` returns an I/O error, the
`?` operator returns from `main` early, and the restoration pair runs zero
times. -/
theorem C2_draw_error_skips_restore :
    runMain ⟨some "cfg", [⟨"a", "b", "c"⟩], none, 0⟩
        [⟨Except.error (), none, ForkResult.Err, Except.ok ()⟩] =
      some (MainOutcome.exitErr, 0) :=
  rfl

/-- C2 amended: terminal restoration runs at most once, and exactly once
precisely on the normal exit path (explicit quit or post-launch quit); on
a draw error or a panic from `ui`/`handle_events`, `main` exits without
restoring the terminal. -/
theorem C2_restore_exactly_once_iff_normal_exit :
    ∀ (its : List Iteration) (data : GlobalInfo) (out : MainOutcome × Nat),
      runMain data its = some out →
      out.2 ≤ 1 ∧ (out.2 = 1 ↔ out.1 = MainOutcome.exitOk) := by
  intro its
  induction its with
  | nil =>
    intro data out h
    simp [runMain] at h
  | cons it rest ih =>
    intro data out h
    simp only [runMain] at h
    split at h
    · injection h with h2
      subst h2
      decide
    · split at h
      · injection h with h2
        subst h2
        decide
      · split at h
        · injection h with h2
          subst h2
          decide
        · split at h
          · injection h with h2
            subst h2
            decide
          · exact ih _ _ h

/-- C2 witness: a quit key press on the first iteration exits normally with
exactly one restoration. -/
theorem C2_restore_exactly_once_iff_normal_exit_witness :
    (1 : Nat) ≤ 1 ∧ ((1 : Nat) = 1 ↔ MainOutcome.exitOk = MainOutcome.exitOk) :=
  C2_restore_exactly_once_iff_normal_exit
    [⟨Except.ok (), some (Event.Key ⟨KeyCode.Char 'q', KeyEventKind.Press⟩),
      ForkResult.Err, Except.ok ()⟩]
    ⟨some "cfg", [⟨"a", "b", "c"⟩], none, 0⟩ (MainOutcome.exitOk, 1) rfl

/-- Helper: on a directory whose entries are all readable, the per-file
loop of `handle_setup` never panics; it loads exactly the entries that
decode, in enumeration order, and emits one diagnostic per file that does
not decode. -/
theorem loadFiles_map_ok (decode : String → Option Program) (contents : List String) :
    loadFiles decode (contents.map Except.ok) =
      Except.ok (contents.filterMap decode,
        (contents.filter (fun s => (decode s).isNone)).map
          (fun _ => "Could not load config file as it is invalid.")) := by
  induction contents with
  | nil => rfl
  | cons s rest ih =>
    simp only [List.map_cons, loadFiles, ih]
    cases hd : decode s with
    | some entry => simp [List.filterMap_cons, List.filter_cons, hd]
    | none => simp [List.filterMap_cons, List.filter_cons, hd]

/-- C7 counterexample: the claim says loading is never fatal for any
directory contents.  A directory entry whose `read_to_string` fails (for
example a subdirectory inside the config directory) hits
`contents.unwrap()` and panics, which is fatal. -/
theorem C7_unreadable_entry_is_fatal :
    handle_setup (fun _ => none) "cfg" true (Except.ok ())
        (Except.ok [Except.error ()]) =
      Except.error PanicKind.unwrapPanic :=
  rfl

/-- C7 amended: for a config directory whose entries are all readable as
text, with N of them decoding to valid `Program` records and M of them
not, `handle_setup` returns (never fatally) exactly the N entries in the
directory enumeration order and emits exactly M diagnostics; an entry
whose read fails is fatal instead. -/
theorem C7_readable_files_load_in_order (decode : String → Option Program)
    (configDir : String) (contents : List String) :
    handle_setup decode configDir true (Except.ok ())
        (Except.ok (contents.map Except.ok)) =
      Except.ok (⟨some (configDir ++ "/glauncher"), contents.filterMap decode, none, 0⟩,
        (contents.filter (fun s => (decode s).isNone)).map
          (fun _ => "Could not load config file as it is invalid.")) := by
  simp [handle_setup, loadFiles_map_ok]

/-- C8 counterexample: the claim says that after a directory-creation
failure `handle_setup` still returns a state instead of terminating.  When
the directory indeed could not be created, the subsequent
`fs::read_dir(..).unwrap()` fails and panics, terminating the program. -/
theorem C8_create_failure_can_be_fatal :
    handle_setup (fun _ => none) "cfg" false (Except.error "denied")
        (Except.error ()) =
      Except.error PanicKind.unwrapPanic :=
  rfl

/-- C8 amended: if creating the config directory fails, `handle_setup`
emits the diagnostic and proceeds to the directory read; when that read
succeeds it returns a state (possibly with an empty entries list), but
when the read fails — as when the directory is indeed missing — the
unwrap panics and the program terminates. -/
theorem C8_create_failure_diagnostic_then_proceeds (decode : String → Option Program)
    (configDir msg : String) (contents : List String) :
    handle_setup decode configDir false (Except.error msg)
        (Except.ok (contents.map Except.ok)) =
      Except.ok (⟨some (configDir ++ "/glauncher"), contents.filterMap decode, none, 0⟩,
        ("Could not make config directory. " ++ msg) ::
          (contents.filter (fun s => (decode s).isNone)).map
            (fun _ => "Could not load config file as it is invalid.")) := by
  simp [handle_setup, loadFiles_map_ok]

/-- C10 counterexample: the claim asserts `handle_events` returns `Quit`
(`true`) for every fork outcome, the child branch included, so that the
child also reaches the settle delay and the restoration path.  When the
child's `spawn()` fails, line 74's `.unwrap()` panics: at this concrete
input the child never returns `true`, and the main loop ends panicked
with zero terminal restorations. -/
theorem C10_child_spawn_failure_no_quit :
    handle_events ⟨some "cfg", [⟨"a", "b", "c"⟩, ⟨"d", "e", "f"⟩], none, 1⟩
        (some (Event.Key ⟨KeyCode.Enter, KeyEventKind.Press⟩)) ForkResult.Child
        (Except.error ()) =
      Except.error PanicKind.unwrapPanic
    ∧ runMain ⟨some "cfg", [⟨"a", "b", "c"⟩, ⟨"d", "e", "f"⟩], none, 1⟩
        [⟨Except.ok (), some (Event.Key ⟨KeyCode.Enter, KeyEventKind.Press⟩),
          ForkResult.Child, Except.error ()⟩] =
      some (MainOutcome.panicked, 0) :=
  ⟨rfl, rfl⟩

/-- C10 amended: after a confirm action with a valid selection,
`handle_events` returns `Quit` (`true`) in the parent branch, in the
duplication-failure branch, and in the child branch when its spawn
succeeds — each with the settle-delay sleep last in the effect trace —
and in that case the forked child also proceeds to the main loop's quit
path, running the terminal restoration exactly once and exiting
normally; when the child's spawn fails, the child panics at the unwrap
instead and never reaches the settle delay or restoration. -/
theorem C10_quit_all_fork_outcomes_spawn_ok (data : GlobalInfo) (pid : Int)
    (spawnRes : Except Unit Unit) (h : data.list_pos < data.list.length) :
    handle_events data (some (Event.Key ⟨KeyCode.Enter, KeyEventKind.Press⟩))
        (ForkResult.Parent pid) spawnRes =
      Except.ok ⟨data, true,
        [Effect.forkCall,
         Effect.println ("Continuing execution in parent process, new child has pid: "
           ++ toString pid),
         Effect.sleepMs 5000]⟩
    ∧ handle_events data (some (Event.Key ⟨KeyCode.Enter, KeyEventKind.Press⟩))
        ForkResult.Err spawnRes =
      Except.ok ⟨data, true,
        [Effect.forkCall, Effect.println "Fork failed", Effect.sleepMs 5000]⟩
    ∧ handle_events data (some (Event.Key ⟨KeyCode.Enter, KeyEventKind.Press⟩))
        ForkResult.Child (Except.ok ()) =
      Except.ok ⟨data, true,
        [Effect.forkCall,
         Effect.spawn "sh" ["-c", (data.list.get ⟨data.list_pos, h⟩).command],
         Effect.sleepMs 5000]⟩
    ∧ runMain data
        [⟨Except.ok (), some (Event.Key ⟨KeyCode.Enter, KeyEventKind.Press⟩),
          ForkResult.Child, Except.ok ()⟩] =
      some (MainOutcome.exitOk, 1) := by
  refine ⟨?_, ?_, ?_, ?_⟩
  · simp [handle_events, downCond, forkBranch, h]
  · simp [handle_events, downCond, forkBranch, h]
  · simp [handle_events, downCond, forkBranch, h]
  · simp [runMain, ui, handle_events, downCond, forkBranch, h]

/-- C10 witness: a one-entry list, parent pid 7, spawn succeeding. -/
theorem C10_quit_all_fork_outcomes_spawn_ok_witness :
    handle_events ⟨some "cfg", [⟨"x", "y", "z"⟩], none, 0⟩
        (some (Event.Key ⟨KeyCode.Enter, KeyEventKind.Press⟩))
        (ForkResult.Parent 7) (Except.ok ()) =
      Except.ok ⟨⟨some "cfg", [⟨"x", "y", "z"⟩], none, 0⟩, true,
        [Effect.forkCall,
         Effect.println ("Continuing execution in parent process, new child has pid: "
           ++ toString (7 : Int)),
         Effect.sleepMs 5000]⟩
    ∧ handle_events ⟨some "cfg", [⟨"x", "y", "z"⟩], none, 0⟩
        (some (Event.Key ⟨KeyCode.Enter, KeyEventKind.Press⟩))
        ForkResult.Err (Except.ok ()) =
      Except.ok ⟨⟨some "cfg", [⟨"x", "y", "z"⟩], none, 0⟩, true,
        [Effect.forkCall, Effect.println "Fork failed", Effect.sleepMs 5000]⟩
    ∧ handle_events ⟨some "cfg", [⟨"x", "y", "z"⟩], none, 0⟩
        (some (Event.Key ⟨KeyCode.Enter, KeyEventKind.Press⟩))
        ForkResult.Child (Except.ok ()) =
      Except.ok ⟨⟨some "cfg", [⟨"x", "y", "z"⟩], none, 0⟩, true,
        [Effect.forkCall, Effect.spawn "sh" ["-c", "z"], Effect.sleepMs 5000]⟩
    ∧ runMain ⟨some "cfg", [⟨"x", "y", "z"⟩], none, 0⟩
        [⟨Except.ok (), some (Event.Key ⟨KeyCode.Enter, KeyEventKind.Press⟩),
          ForkResult.Child, Except.ok ()⟩] =
      some (MainOutcome.exitOk, 1) :=
  C10_quit_all_fork_outcomes_spawn_ok ⟨some "cfg", [⟨"x", "y", "z"⟩], none, 0⟩
    7 (Except.ok ()) (by decide)

end GLauncher
